import Mathlib

/-!
Verification of the content-addressed TTS audio generation-and-cache pipeline
(`server.js` and its variants).  The definitions below are shallow embeddings
of the JavaScript source: the fingerprint function (MD5 of the naive
concatenation of `text`, `voice` and `speed`), the `/api/tts` request handler
of the main `server.js` variant, the `generateTTSAudio` function of the
variant in `part_007` (in-memory `CACHE` plus disk cache), the
`/api/cleanup` retention sweep, and a two-request interleaving model of the
handler used to analyse the concurrency claims.

Machine integers are modelled as `Nat` with explicit `% 2 ^ 32` where the
source relies on 32-bit wraparound (inside MD5).  Filesystem state is an
association list from file name to metadata.  External subprocesses
(`espeak`, `ffmpeg`) are modelled by an oracle record `Adapters` giving, for
each invocation, the exit code and the file (if any) the subprocess wrote.
-/

/-! ## MD5 (RFC 1321), as invoked by `crypto.createHash('md5')` -/

/-- The 32-bit mask `2 ^ 32 - 1`. -/
def mask32 : Nat := 4294967295

/-- Per-round left-rotation amounts of MD5. -/
def md5S : List Nat :=
  [7, 12, 17, 22, 7, 12, 17, 22, 7, 12, 17, 22, 7, 12, 17, 22,
   5, 9, 14, 20, 5, 9, 14, 20, 5, 9, 14, 20, 5, 9, 14, 20,
   4, 11, 16, 23, 4, 11, 16, 23, 4, 11, 16, 23, 4, 11, 16, 23,
   6, 10, 15, 21, 6, 10, 15, 21, 6, 10, 15, 21, 6, 10, 15, 21]

/-- The 64 MD5 sine-derived constants `⌊2^32·|sin(i+1)|⌋`. -/
def md5K : List Nat :=
  [0xd76aa478, 0xe8c7b756, 0x242070db, 0xc1bdceee,
   0xf57c0faf, 0x4787c62a, 0xa8304613, 0xfd469501,
   0x698098d8, 0x8b44f7af, 0xffff5bb1, 0x895cd7be,
   0x6b901122, 0xfd987193, 0xa679438e, 0x49b40821,
   0xf61e2562, 0xc040b340, 0x265e5a51, 0xe9b6c7aa,
   0xd62f105d, 0x02441453, 0xd8a1e681, 0xe7d3fbc8,
   0x21e1cde6, 0xc33707d6, 0xf4d50d87, 0x455a14ed,
   0xa9e3e905, 0xfcefa3f8, 0x676f02d9, 0x8d2a4c8a,
   0xfffa3942, 0x8771f681, 0x6d9d6122, 0xfde5380c,
   0xa4beea44, 0x4bdecfa9, 0xf6bb4b60, 0xbebfbc70,
   0x289b7ec6, 0xeaa127fa, 0xd4ef3085, 0x04881d05,
   0xd9d4d039, 0xe6db99e5, 0x1fa27cf8, 0xc4ac5665,
   0xf4292244, 0x432aff97, 0xab9423a7, 0xfc93a039,
   0x655b59c3, 0x8f0ccc92, 0xffeff47d, 0x85845dd1,
   0x6fa87e4f, 0xfe2ce6e0, 0xa3014314, 0x4e0811a1,
   0xf7537e82, 0xbd3af235, 0x2ad7d2bb, 0xeb86d391]

/-- 32-bit left rotation. -/
def leftrotate (x n : Nat) : Nat :=
  ((x <<< n) ||| (x >>> (32 - n))) % 2 ^ 32

/-- One of the 64 MD5 operations, acting on the state `(a, b, c, d)`
with the 16 message words `M` of the current chunk. -/
def md5Op (M : List Nat) (st : Nat × Nat × Nat × Nat) (i : Nat) :
    Nat × Nat × Nat × Nat :=
  let a := st.1
  let b := st.2.1
  let c := st.2.2.1
  let d := st.2.2.2
  let f :=
    if i < 16 then (b &&& c) ||| ((mask32 ^^^ b) &&& d)
    else if i < 32 then (d &&& b) ||| ((mask32 ^^^ d) &&& c)
    else if i < 48 then b ^^^ c ^^^ d
    else c ^^^ (b ||| (mask32 ^^^ d))
  let g :=
    if i < 16 then i
    else if i < 32 then (5 * i + 1) % 16
    else if i < 48 then (3 * i + 5) % 16
    else (7 * i) % 16
  let t := (f + a + md5K.getD i 0 + M.getD g 0) % 2 ^ 32
  (d, (b + leftrotate t (md5S.getD i 0)) % 2 ^ 32, b, c)

/-- Compression of one 16-word chunk into the running MD5 state. -/
def md5Chunk (M : List Nat) (st : Nat × Nat × Nat × Nat) :
    Nat × Nat × Nat × Nat :=
  let r := (List.range 64).foldl (md5Op M) st
  ((st.1 + r.1) % 2 ^ 32, (st.2.1 + r.2.1) % 2 ^ 32,
   (st.2.2.1 + r.2.2.1) % 2 ^ 32, (st.2.2.2 + r.2.2.2) % 2 ^ 32)

/-- Decode a byte list into little-endian 32-bit words (groups of 4). -/
def wordsLE : List Nat → List Nat
  | b0 :: b1 :: b2 :: b3 :: rest =>
      (b0 + 256 * b1 + 65536 * b2 + 16777216 * b3) :: wordsLE rest
  | _ => []

/-- Fold the compression function over successive 16-word chunks. -/
def md5Chunks : List Nat → Nat × Nat × Nat × Nat → Nat × Nat × Nat × Nat
  | w0 :: w1 :: w2 :: w3 :: w4 :: w5 :: w6 :: w7 ::
    w8 :: w9 :: w10 :: w11 :: w12 :: w13 :: w14 :: w15 :: rest, st =>
      md5Chunks rest
        (md5Chunk [w0, w1, w2, w3, w4, w5, w6, w7,
                   w8, w9, w10, w11, w12, w13, w14, w15] st)
  | _, st => st

/-- The 8 little-endian bytes of the 64-bit message bit length. -/
def lenBytesLE (bitLen : Nat) : List Nat :=
  [bitLen % 256, bitLen / 2 ^ 8 % 256, bitLen / 2 ^ 16 % 256,
   bitLen / 2 ^ 24 % 256, bitLen / 2 ^ 32 % 256, bitLen / 2 ^ 40 % 256,
   bitLen / 2 ^ 48 % 256, bitLen / 2 ^ 56 % 256]

/-- MD5 padding: append `0x80`, zero bytes to 56 mod 64, then the bit
length in 64 bits little-endian. -/
def padMessage (bytes : List Nat) : List Nat :=
  let len := bytes.length
  let padZeros := (119 - len % 64) % 64
  bytes ++ [0x80] ++ List.replicate padZeros 0 ++ lenBytesLE ((8 * len) % 2 ^ 64)

/-- UTF-8 encoding of a single character (Node's default encoding for
`hash.update(string)`). -/
def utf8Bytes (c : Char) : List Nat :=
  let n := c.toNat
  if n < 0x80 then [n]
  else if n < 0x800 then
    [0xC0 ||| (n >>> 6), 0x80 ||| (n &&& 0x3F)]
  else if n < 0x10000 then
    [0xE0 ||| (n >>> 12), 0x80 ||| ((n >>> 6) &&& 0x3F), 0x80 ||| (n &&& 0x3F)]
  else
    [0xF0 ||| (n >>> 18), 0x80 ||| ((n >>> 12) &&& 0x3F),
     0x80 ||| ((n >>> 6) &&& 0x3F), 0x80 ||| (n &&& 0x3F)]

/-- The UTF-8 byte sequence of a string. -/
def strBytes (s : String) : List Nat :=
  (s.data.map utf8Bytes).flatten

/-- The four 32-bit state words of the MD5 digest of a string. -/
def md5Words (s : String) : Nat × Nat × Nat × Nat :=
  md5Chunks (wordsLE (padMessage (strBytes s)))
    (0x67452301, 0xefcdab89, 0x98badcfe, 0x10325476)

/-- The 4 little-endian bytes of a 32-bit word. -/
def wordLEBytes (w : Nat) : List Nat :=
  [w % 256, w / 2 ^ 8 % 256, w / 2 ^ 16 % 256, w / 2 ^ 24 % 256]

/-- The 16 digest bytes of the MD5 of a string. -/
def md5Bytes (s : String) : List Nat :=
  wordLEBytes (md5Words s).1 ++ wordLEBytes (md5Words s).2.1 ++
  wordLEBytes (md5Words s).2.2.1 ++ wordLEBytes (md5Words s).2.2.2

/-- A lowercase hexadecimal digit. -/
def hexDigit (n : Nat) : Char :=
  if n < 10 then Char.ofNat (48 + n) else Char.ofNat (87 + n)

/-- The two hex characters of one byte. -/
def bytePairChars (b : Nat) : List Char :=
  [hexDigit (b / 16 % 16), hexDigit (b % 16)]

/-- Lowercase hex rendering of a byte list, as `Buffer.toString('hex')`
and `hash.digest('hex')` produce. -/
def hexOfBytes (bs : List Nat) : String :=
  String.mk ((bs.map bytePairChars).flatten)

/-- `crypto.createHash('md5').update(s).digest('hex')`. -/
def md5Hex (s : String) : String :=
  hexOfBytes (md5Bytes s)

/-! ## JavaScript `speed` values

The `speed` field of the request body is an arbitrary JSON value; the code
compares it with `<` / `>` and stringifies it with template interpolation and
`toString()`.  We model the values relevant to the claims: integer numbers,
`NaN`, and strings.  (Fractional numbers are not needed by any claim.) -/

/-- JavaScript `String.prototype.trim`: strip leading and trailing
whitespace. -/
def jsTrim (s : String) : String :=
  String.mk
    (((s.data.dropWhile Char.isWhitespace).reverse.dropWhile
        Char.isWhitespace).reverse)

/-- The numeric value of an all-digit character list. -/
def digitsVal (cs : List Char) : Option Nat :=
  if cs.isEmpty then none
  else if cs.all (fun c => decide (48 ≤ c.toNat) && decide (c.toNat ≤ 57)) then
    some (cs.foldl (fun a c => 10 * a + (c.toNat - 48)) 0)
  else none

/-- JavaScript `ToNumber` on a string, restricted to the integer fragment
(all the claims use integer-literal strings): whitespace is trimmed, the
empty remainder is `0`, an optional sign precedes decimal digits, and
anything else is `NaN` (`none`). -/
def jsStringToNumber (s : String) : Option Int :=
  match (jsTrim s).data with
  | [] => some 0
  | '-' :: rest => (digitsVal rest).map (fun n => -(n : Int))
  | '+' :: rest => (digitsVal rest).map (fun n => (n : Int))
  | l => (digitsVal l).map (fun n => (n : Int))

inductive JSpeed where
  | num (n : Int)
  | nan
  | str (s : String)
  deriving Repr, DecidableEq

/-- JavaScript `ToNumber` on a speed value, `none` meaning `NaN`.
A non-numeric string coerces to `NaN`. -/
def JSpeed.toNumber : JSpeed → Option Int
  | .num n => some n
  | .nan => none
  | .str s => jsStringToNumber s

/-- JavaScript `speed < b`: a relational comparison with a number coerces
the operand via `ToNumber`; any comparison with `NaN` is `false`. -/
def JSpeed.jsLt (a : JSpeed) (b : Int) : Bool :=
  match a.toNumber with
  | some x => decide (x < b)
  | none => false

/-- JavaScript `speed > b`, see `JSpeed.jsLt`. -/
def JSpeed.jsGt (a : JSpeed) (b : Int) : Bool :=
  match a.toNumber with
  | some x => decide (x > b)
  | none => false

/-- JavaScript stringification of the speed, as used by both the template
literal in the hash input and `speed.toString()` in the `espeak` argument
list. -/
def JSpeed.toStr : JSpeed → String
  | .num n => toString n
  | .nan => "NaN"
  | .str s => s

/-! ## The fingerprint -/

/-- `crypto.createHash('md5').update(`...`${text}${voice}${speed}`...`).digest('hex')`
(server.js line 370; identically `text + voice + speed` at server.js line 60,
`part_005` line 98, `part_006` line 65, `part_007` line 135): MD5 of the
naive, separator-free concatenation of text, voice and stringified speed. -/
def fingerprint (text voice : String) (speed : JSpeed) : String :=
  md5Hex (text ++ voice ++ speed.toStr)

/-! ## Filesystem state

The audio directory is modelled as an association list from file name to
metadata; `FS.write` models a subprocess (or Node) creating/overwriting a
file, `FS.unlink` models `fs.unlink`.  File names are relative to the audio
directory. -/

/-- Metadata of one on-disk file: byte size and `mtimeMs`. -/
structure FileMeta where
  size : Nat
  mtimeMs : Int
  deriving Repr, DecidableEq

/-- The audio directory: file name to metadata. -/
abbrev FS := List (String × FileMeta)

/-- `fsSync.existsSync` on a file of the audio directory. -/
def FS.existsFile (fs : FS) (name : String) : Bool :=
  (fs.lookup name).isSome

/-- `fs.stat`, as a partial lookup. -/
def FS.statMeta (fs : FS) (name : String) : Option FileMeta :=
  fs.lookup name

/-- Creation or overwrite of a file.  A directory holds at most one entry
per name, so any previous entry is dropped. -/
def FS.write (fs : FS) (name : String) (m : FileMeta) : FS :=
  (name, m) :: fs.filter (fun e => !(e.1 == name))

/-- `fs.unlink`. -/
def FS.unlink (fs : FS) (name : String) : FS :=
  fs.filter (fun e => !(e.1 == name))

/-! ## Subprocess adapters

External subprocess behaviour is an oracle: for each invocation it yields the
exit code and the output file written (if any; `none` models a crash or a
silent failure that produced no file, `some` with an exit code `≠ 0` models a
partial output left behind by a failing run).  `probeDuration` models the
`ffprobe`-style duration query, which in the source never rejects (it
resolves `0` on failure). -/

structure Adapters where
  espeakRun : String → String → String → Int × Option FileMeta
  ffmpegRun : String → Int × Option FileMeta
  probeDuration : String → FileMeta → Int

/-- Adapter invocations observed during a request (the subprocess trace).
`synth` records the arguments handed to `espeak` — text, voice and the
string passed for `-s`. -/
inductive Ev where
  | synth (text voice speedStr : String)
  | transcode (input output : String)
  | probe (path : String)
  deriving Repr, DecidableEq

/-- Is the event a Synthesis Adapter invocation? -/
def Ev.isSynth : Ev → Bool
  | .synth _ _ _ => true
  | _ => false

/-- Is the event a Transcode Adapter invocation? -/
def Ev.isTrans : Ev → Bool
  | .transcode _ _ => true
  | _ => false

/-- Is the event a generation (synthesis or transcode) invocation? -/
def Ev.isGen (e : Ev) : Bool :=
  e.isSynth || e.isTrans

/-- `runEspeak` (server.js lines 211-240): spawns `espeak`, resolves iff the
close code is `0` (a timeout kill is a rejection, modelled as a nonzero
code).  Returns the filesystem after the subprocess ran and the success
flag. -/
def runEspeak (ad : Adapters) (fs : FS) (text voice speedStr outputPath : String) :
    FS × Bool :=
  let r := ad.espeakRun text voice speedStr
  let fs1 := match r.2 with
    | some m => fs.write outputPath m
    | none => fs
  (fs1, r.1 == 0)

/-- `convertToMp3` (server.js lines 243-274): spawns `ffmpeg`; the close
handler resolves iff the exit code is `0` *and* `fsSync.existsSync(outputPath)`
holds afterwards.  (No size check is performed.) -/
def convertToMp3 (ad : Adapters) (fs : FS) (inputPath outputPath : String) :
    FS × Bool :=
  let r := ad.ffmpegRun inputPath
  let fs1 := match r.2 with
    | some m => fs.write outputPath m
    | none => fs
  (fs1, r.1 == 0 && fs1.existsFile outputPath)

/-! ## The `/api/tts` handler of the main `server.js` variant -/

/-- The JSON body of a successful `/api/tts` response. -/
structure TTSResponse where
  audio_id : String
  duration : Int
  file_size : Nat
  url : String
  deriving Repr, DecidableEq

/-- Outcome of one `/api/tts` call: 200 with metadata, 400 (validation), or
500 (generation failure). -/
inductive TTSResult where
  | ok (r : TTSResponse)
  | clientError (msg : String)
  | serverError (msg : String)
  deriving Repr, DecidableEq

/-- Did the call end in a 400 validation rejection? -/
def TTSResult.isClientError : TTSResult → Bool
  | .clientError _ => true
  | _ => false

/-- Did the call end in a 500? -/
def TTSResult.isServerError : TTSResult → Bool
  | .serverError _ => true
  | _ => false

/-- A destructured `/api/tts` request body
(`const { text, voice = 'en', speed = 175 } = req.body`): `voice` and
`speed` carry their defaults when absent; `text` has none, so it can be
missing.  `host` is `req.get('host')`, used only in the response URL. -/
structure TTSReq where
  text : Option String
  voice : String
  speed : JSpeed
  host : String
  deriving Repr, DecidableEq

/-- The URL built for a generated artifact. -/
def audioUrl (host hash : String) : String :=
  "https://" ++ host ++ "/audio/" ++ hash ++ ".mp3"

/-- The `/api/tts` handler of the main `server.js` variant (lines 355-417):
validation, fingerprint, `existsSync` fast path, else
`runEspeak` → `convertToMp3` → unlink the WAV → stat/duration.  The `catch`
block only sends the 500 response — it removes nothing.  Returns the final
filesystem, the HTTP-level result and the subprocess trace. -/
def ttsHandler (ad : Adapters) (fs : FS) (req : TTSReq) :
    FS × TTSResult × List Ev :=
  match req.text with
  | none => (fs, .clientError "Missing required field: text", [])
  | some text =>
    if jsTrim text == "" then
      (fs, .clientError "Missing required field: text", [])
    else if text.length > 1000 then
      (fs, .clientError "Text exceeds maximum length of 1000", [])
    else if req.speed.jsLt 80 || req.speed.jsGt 500 then
      (fs, .clientError "Speed must be between 80 and 500", [])
    else
      let hash := fingerprint text req.voice req.speed
      let wavFile := hash ++ ".wav"
      let mp3File := hash ++ ".mp3"
      if fs.existsFile mp3File then
        let m := (fs.statMeta mp3File).getD ⟨0, 0⟩
        (fs, .ok ⟨hash, ad.probeDuration mp3File m, m.size, audioUrl req.host hash⟩,
          [.probe mp3File])
      else
        let e := runEspeak ad fs text req.voice req.speed.toStr wavFile
        if !e.2 then
          (e.1, .serverError "TTS processing failed",
            [.synth text req.voice req.speed.toStr])
        else
          let c := convertToMp3 ad e.1 wavFile mp3File
          if !c.2 then
            (c.1, .serverError "TTS processing failed",
              [.synth text req.voice req.speed.toStr, .transcode wavFile mp3File])
          else
            let fs3 := c.1.unlink wavFile
            let m := (fs3.statMeta mp3File).getD ⟨0, 0⟩
            (fs3, .ok ⟨hash, ad.probeDuration mp3File m, m.size, audioUrl req.host hash⟩,
              [.synth text req.voice req.speed.toStr, .transcode wavFile mp3File,
               .probe mp3File])

/-! ## `generateTTSAudio` of the `part_007` variant

This variant keeps an in-memory `CACHE` (a `Map` from hash to the result
object) in front of the disk cache.  `executeCommand` resolves iff the exit
code is `0`; `fsPromises.stat` on a missing file throws into the `catch`
block, which unlinks both the WAV and the MP3 before rethrowing. -/

/-- The result object `{ audioFilePath, audioId, duration, fileSize }`
returned by `generateTTSAudio` and stored in `CACHE`. -/
structure GenResult where
  audioFilePath : String
  audioId : String
  duration : Int
  fileSize : Nat
  deriving Repr, DecidableEq

/-- Process state of the `part_007` variant: the in-memory `CACHE` and the
audio directory. -/
structure GenState where
  cache : List (String × GenResult)
  fs : FS
  deriving Repr, DecidableEq

/-- `generateTTSAudio` (`part_007` lines 133-196).  Returns the new process
state, the result (`Except` models a thrown error), and the subprocess
trace. -/
def generateTTSAudio (ad : Adapters) (st : GenState) (text voice : String)
    (speed : JSpeed) : GenState × Except String GenResult × List Ev :=
  let hash := fingerprint text voice speed
  let wavFile := hash ++ ".wav"
  let mp3File := hash ++ ".mp3"
  match st.cache.lookup hash with
  | some r => (st, .ok r, [])
  | none =>
    if st.fs.existsFile mp3File then
      let m := (st.fs.statMeta mp3File).getD ⟨0, 0⟩
      let r : GenResult := ⟨mp3File, hash, ad.probeDuration mp3File m, m.size⟩
      (⟨(hash, r) :: st.cache, st.fs⟩, .ok r, [.probe mp3File])
    else
      let e := ad.espeakRun text voice speed.toStr
      let fs1 := match e.2 with
        | some m => st.fs.write wavFile m
        | none => st.fs
      if e.1 != 0 then
        (⟨st.cache, (fs1.unlink wavFile).unlink mp3File⟩, .error "eSpeak failed",
          [.synth text voice speed.toStr])
      else
        let c := ad.ffmpegRun wavFile
        let fs2 := match c.2 with
          | some m => fs1.write mp3File m
          | none => fs1
        if c.1 != 0 then
          (⟨st.cache, (fs2.unlink wavFile).unlink mp3File⟩,
            .error "FFmpeg conversion failed",
            [.synth text voice speed.toStr, .transcode wavFile mp3File])
        else
          match fs2.statMeta mp3File with
          | none =>
            (⟨st.cache, (fs2.unlink wavFile).unlink mp3File⟩,
              .error "stat failed",
              [.synth text voice speed.toStr, .transcode wavFile mp3File])
          | some m =>
            let r : GenResult := ⟨mp3File, hash, ad.probeDuration mp3File m, m.size⟩
            (⟨(hash, r) :: st.cache, fs2.unlink wavFile⟩, .ok r,
              [.synth text voice speed.toStr, .transcode wavFile mp3File,
               .probe mp3File])

/-! ## File naming of the `part_004` variant -/

/-- `part_004` lines 42-43: the output WAV is named from
`crypto.randomBytes(16).toString('hex')`.  The request parameters do not
enter the name at all; `randBytes` is the entropy drawn for this call. -/
def part004AudioFile (_text _voice : String) (_speed : JSpeed)
    (randBytes : List Nat) : String :=
  "audio_" ++ hexOfBytes randBytes ++ ".wav"

/-! ## The `/api/cleanup` retention sweep (server.js lines 450-480)

The loop stats every directory entry and unlinks those whose age exceeds
`config.cleanupInterval`; each iteration's failures (stat or unlink) are
caught, recorded in `errors`, and the loop continues.  Per-file failure is
oracle data on the entry. -/

/-- One entry of the audio directory as seen by the sweep, together with
the oracle saying whether its `stat` or its `unlink` would fail. -/
structure SweepFile where
  name : String
  mtimeMs : Int
  statFails : Bool
  unlinkFails : Bool
  deriving Repr, DecidableEq

/-- An element of the sweep's `errors` list (`{ file, error }`). -/
structure SweepErr where
  file : String
  reason : String
  deriving Repr, DecidableEq

/-- The `/api/cleanup` loop: returns `cleaned` (number of successful
deletions), the `errors` list in encounter order, and the surviving
entries. -/
def cleanupSweep (now maxAge : Int) : List SweepFile → Nat × List SweepErr × List SweepFile
  | [] => (0, [], [])
  | f :: rest =>
    let r := cleanupSweep now maxAge rest
    if f.statFails then
      (r.1, ⟨f.name, "stat failed"⟩ :: r.2.1, f :: r.2.2)
    else if now - f.mtimeMs > maxAge then
      if f.unlinkFails then
        (r.1, ⟨f.name, "unlink failed"⟩ :: r.2.1, f :: r.2.2)
      else
        (r.1 + 1, r.2.1, r.2.2)
    else
      (r.1, r.2.1, f :: r.2.2)

/-! ## Interleaving model of two concurrent `/api/tts` requests

The handler suspends at each `await`; between suspension points it runs
atomically.  For the generation path of the main variant this yields three
atomic steps per request: (1) the `existsSync` check followed by spawning
`espeak` on a miss, (2) `espeak` completing (writing the WAV) and `ffmpeg`
being spawned, (3) `ffmpeg` completing (writing the MP3), the WAV unlink,
the stat/duration, and the response.  Adapters follow the success path with
fixed outputs `wavM`/`mp3M` and duration `dur` — the setting of the
at-most-one-generation claim.  There is no per-fingerprint lock anywhere in
the source, so nothing else constrains the interleaving. -/

/-- Program counter of one in-flight request. -/
inductive ReqPhase where
  | checking
  | synthRunning
  | transRunning
  | finished
  deriving Repr, DecidableEq

/-- One in-flight request: its phase, its subprocess trace so far, and its
response once sent. -/
structure ProcSt where
  phase : ReqPhase
  evs : List Ev
  response : Option TTSResponse
  deriving Repr, DecidableEq

/-- The shared scenario of the concurrency model: both requests carry the
same parameters, and the adapters deterministically succeed. -/
structure GenEnv where
  text : String
  voice : String
  speed : JSpeed
  host : String
  wavM : FileMeta
  mp3M : FileMeta
  dur : Int
  deriving Repr

/-- One atomic step of one request against the shared directory. -/
def stepReq (env : GenEnv) (fs : FS) (p : ProcSt) : FS × ProcSt :=
  let hash := fingerprint env.text env.voice env.speed
  let wavFile := hash ++ ".wav"
  let mp3File := hash ++ ".mp3"
  match p.phase with
  | .checking =>
    if fs.existsFile mp3File then
      let m := (fs.statMeta mp3File).getD ⟨0, 0⟩
      (fs, ⟨.finished, p.evs ++ [.probe mp3File],
        some ⟨hash, env.dur, m.size, audioUrl env.host hash⟩⟩)
    else
      (fs, ⟨.synthRunning,
        p.evs ++ [.synth env.text env.voice env.speed.toStr], none⟩)
  | .synthRunning =>
    (fs.write wavFile env.wavM,
      ⟨.transRunning, p.evs ++ [.transcode wavFile mp3File], none⟩)
  | .transRunning =>
    let fs1 := (fs.write mp3File env.mp3M).unlink wavFile
    let m := (fs1.statMeta mp3File).getD ⟨0, 0⟩
    (fs1, ⟨.finished, p.evs ++ [.probe mp3File],
      some ⟨hash, env.dur, m.size, audioUrl env.host hash⟩⟩)
  | .finished => (fs, p)

/-- The whole system: the shared directory and the two requests. -/
structure TwoSys where
  fs : FS
  pA : ProcSt
  pB : ProcSt
  deriving Repr

/-- Scheduler step: `true` advances request A, `false` request B. -/
def stepSys (env : GenEnv) (s : TwoSys) (choice : Bool) : TwoSys :=
  if choice then
    let r := stepReq env s.fs s.pA
    ⟨r.1, r.2, s.pB⟩
  else
    let r := stepReq env s.fs s.pB
    ⟨r.1, s.pA, r.2⟩

/-- Run a schedule from a given system state. -/
def runSched (env : GenEnv) (sched : List Bool) (s : TwoSys) : TwoSys :=
  sched.foldl (stepSys env) s

/-- Both requests start at their existence check over an empty directory
(no artifact yet for the fingerprint). -/
def initTwoSys : TwoSys :=
  ⟨[], ⟨.checking, [], none⟩, ⟨.checking, [], none⟩⟩

/-- Number of Synthesis Adapter invocations in a trace. -/
def synthCount (evs : List Ev) : Nat :=
  (evs.filter Ev.isSynth).length

/-- Number of Transcode Adapter invocations in a trace. -/
def transCount (evs : List Ev) : Nat :=
  (evs.filter Ev.isTrans).length

/-- The union of both requests' traces. -/
def sysEvs (s : TwoSys) : List Ev :=
  s.pA.evs ++ s.pB.evs

/-- Did `generateTTSAudio` return normally? -/
def exceptIsOk : Except String GenResult → Bool
  | .ok _ => true
  | .error _ => false

/-! ## Concrete scenarios used by witnesses and counterexamples -/

/-- Adapters that deterministically succeed: `espeak` exits 0 writing an
11-byte WAV, `ffmpeg` exits 0 writing a 22-byte MP3, probed duration 3. -/
def adOk : Adapters :=
  ⟨fun _ _ _ => (0, some ⟨11, 1⟩), fun _ => (0, some ⟨22, 2⟩), fun _ _ => 3⟩

/-- Adapters whose transcoder exits 1 without writing any output. -/
def adTransFail : Adapters :=
  ⟨fun _ _ _ => (0, some ⟨11, 1⟩), fun _ => (1, none), fun _ _ => 3⟩

/-- Adapters whose transcoder exits 0 after writing a zero-byte output
file (a transcoder that "fails silently"). -/
def adEmptyOut : Adapters :=
  ⟨fun _ _ _ => (0, some ⟨11, 1⟩), fun _ => (0, some ⟨0, 2⟩), fun _ _ => 3⟩

/-- A stale cached result object whose `audioFilePath` no longer exists. -/
def staleResult : GenResult :=
  ⟨"stale.mp3", "stale", 5, 99⟩

/-- The concrete environment of the concurrency scenarios: two requests for
`("hi", "en", 175)` with deterministically succeeding adapters. -/
def envHi : GenEnv :=
  ⟨"hi", "en", .num 175, "h", ⟨11, 1⟩, ⟨22, 2⟩, 3⟩

/-- A valid concrete request. -/
def reqHi : TTSReq := ⟨some "hi", "en", .num 175, "h"⟩

/-- A directory already holding the artifact for `reqHi` (7 bytes). -/
def hitFS : FS := [(fingerprint "hi" "en" (.num 175) ++ ".mp3", ⟨7, 4⟩)]

/-- The response of a fast-path `reqHi` call against `hitFS` under
`adOk`. -/
def hitResp : TTSResponse :=
  ⟨fingerprint "hi" "en" (.num 175), 3, 7,
    audioUrl "h" (fingerprint "hi" "en" (.num 175))⟩

/-- The response of a generating `reqHi` call against an empty directory
under `adOk` (MP3 of 22 bytes, probed duration 3). -/
def okResp : TTSResponse :=
  ⟨fingerprint "hi" "en" (.num 175), 3, 22,
    audioUrl "h" (fingerprint "hi" "en" (.num 175))⟩

/-! ## Helper lemmas -/

/-- Writing a file makes it the lookup result for its own name. -/
theorem lookup_write_self (fs : FS) (n : String) (m : FileMeta) :
    (fs.write n m).lookup n = some m := by
  simp [FS.write, List.lookup_cons]

/-- Unlinking removes the file from lookup. -/
theorem lookup_unlink_self (fs : FS) (n : String) :
    (fs.unlink n).lookup n = none := by
  induction fs with
  | nil => rfl
  | cons e rest ih =>
    obtain ⟨a, b⟩ := e
    simp only [FS.unlink] at ih ⊢
    by_cases ha : a = n
    · simp [List.filter_cons, ha, ih]
    · have h1 : (a == n) = false := beq_eq_false_iff_ne.mpr ha
      have h2 : (n == a) = false :=
        beq_eq_false_iff_ne.mpr (fun hh => ha hh.symm)
      simp [List.filter_cons, h1, List.lookup_cons, h2, ih]

/-- Unlinking one name leaves the lookup of any other name unchanged. -/
theorem lookup_unlink_ne (fs : FS) (n k : String) (h : ¬k = n) :
    (fs.unlink n).lookup k = fs.lookup k := by
  induction fs with
  | nil => rfl
  | cons e rest ih =>
    obtain ⟨a, b⟩ := e
    simp only [FS.unlink] at ih ⊢
    by_cases ha : a = n
    · have hk : (k == a) = false :=
        beq_eq_false_iff_ne.mpr (fun hh => h (hh.trans ha))
      have h3 : (k == n) = false := beq_eq_false_iff_ne.mpr h
      simp [List.filter_cons, ha, List.lookup_cons, hk, h3, ih]
    · have h1 : (a == n) = false := beq_eq_false_iff_ne.mpr ha
      by_cases hk : k = a
      · simp [List.filter_cons, h1, List.lookup_cons, hk]
      · have h2 : (k == a) = false := beq_eq_false_iff_ne.mpr hk
        simp [List.filter_cons, h1, List.lookup_cons, h2, ih]

/-- Writing one name leaves the lookup of any other name unchanged. -/
theorem lookup_write_ne (fs : FS) (n k : String) (m : FileMeta) (h : ¬k = n) :
    (fs.write n m).lookup k = fs.lookup k := by
  have h2 : (k == n) = false := beq_eq_false_iff_ne.mpr h
  simp only [FS.write, List.lookup_cons, h2]
  exact lookup_unlink_ne fs n k h

/-- Appending distinct suffixes to the same string yields distinct
strings. -/
theorem string_append_right_ne (h : String) {a b : String} (hne : a ≠ b) :
    h ++ a ≠ h ++ b := by
  intro he
  apply hne
  apply String.ext
  have hd := congrArg String.data he
  rw [String.data_append, String.data_append] at hd
  exact List.append_cancel_left hd

/-- A fingerprint's `.wav` name differs from its `.mp3` name. -/
theorem wav_ne_mp3 (h : String) : h ++ ".wav" ≠ h ++ ".mp3" :=
  string_append_right_ne h (by decide)

/-- A fingerprint's `.mp3` name differs from its `.wav` name. -/
theorem mp3_ne_wav (h : String) : h ++ ".mp3" ≠ h ++ ".wav" :=
  string_append_right_ne h (by decide)

/-- An unlinked file no longer exists. -/
theorem existsFile_unlink_self (fs : FS) (n : String) :
    (fs.unlink n).existsFile n = false := by
  simp [FS.existsFile, lookup_unlink_self]

/-- A file unlinked before one further unlink no longer exists. -/
theorem existsFile_double_unlink (fs : FS) (a b : String) :
    ((fs.unlink a).unlink b).existsFile a = false := by
  by_cases hab : a = b
  · subst hab
    exact existsFile_unlink_self (fs.unlink a) a
  · simp [FS.existsFile, lookup_unlink_ne _ _ _ hab, lookup_unlink_self]

/-- Hex rendering yields two characters per byte. -/
theorem flatten_pairs_length (bs : List Nat) :
    ((bs.map bytePairChars).flatten).length = 2 * bs.length := by
  induction bs with
  | nil => rfl
  | cons b rest ih =>
    simp [bytePairChars, ih]
    ring

/-- An MD5 digest has 16 bytes. -/
theorem md5Bytes_length (s : String) : (md5Bytes s).length = 16 := by
  simp [md5Bytes, wordLEBytes]

/-- An MD5 hex digest has 32 characters — the fingerprint is a fixed-length
identifier. -/
theorem md5Hex_length (s : String) : (md5Hex s).length = 32 := by
  show ((md5Bytes s).map bytePairChars).flatten.length = 32
  rw [flatten_pairs_length, md5Bytes_length]

/-! ## Claim C4 — fingerprint injectivity -/

/-- C4: the claim states that distinct `(text, voice, speed)` triples always
receive distinct fingerprints and that in particular `("ab","c",s)` and
`("a","bc",s)` never collide.  The code hashes the separator-free
concatenation, so exactly that pair collides: both triples hash
`"abc175"`. -/
theorem fingerprint_collision :
    fingerprint "ab" "c" (.num 175) = fingerprint "a" "bc" (.num 175) ∧
    ¬("ab" = "a" ∧ "c" = "bc") := by
  constructor
  · have harg : ("ab" ++ "c" ++ JSpeed.toStr (.num 175)) =
        ("a" ++ "bc" ++ JSpeed.toStr (.num 175)) := by decide
    exact congrArg md5Hex harg
  · decide

/-! ## Claim C6 — transcode postcondition -/

/-- C6 counterexample: the claim states `transcode` succeeds only if the
output file exists *and has nonzero size*.  The close handler checks only
`code === 0 && existsSync(outputPath)`: with exit code 0 and a zero-byte
output file it resolves success. -/
theorem convert_zero_size_success :
    (convertToMp3 adEmptyOut [] "in.wav" "out.mp3").2 = true ∧
    (convertToMp3 adEmptyOut [] "in.wav" "out.mp3").1.statMeta "out.mp3" =
      some ⟨0, 2⟩ := by
  decide

/-- C6 amended: `convertToMp3` resolves success only if the subprocess
exited 0 and the output file exists afterwards — an exit code 0 with a
missing output file is still reported as an error; the byte size is not
checked. -/
theorem convert_success_requires_output (ad : Adapters) (fs : FS)
    (i o : String) (h : (convertToMp3 ad fs i o).2 = true) :
    (convertToMp3 ad fs i o).1.existsFile o = true ∧
    (ad.ffmpegRun i).1 = 0 := by
  simp only [convertToMp3, Bool.and_eq_true, beq_iff_eq] at h ⊢
  exact ⟨h.2, h.1⟩

/-- C6 amended, witness: a successful concrete conversion. -/
theorem convert_success_requires_output_witness :
    (convertToMp3 adOk [] "a.wav" "b.mp3").1.existsFile "b.mp3" = true ∧
    (adOk.ffmpegRun "a.wav").1 = 0 :=
  convert_success_requires_output adOk [] "a.wav" "b.mp3" (by decide)

/-! ## Claim C9 — the retention sweep -/

/-- C9: the sweep deletes exactly the entries whose age strictly exceeds
`maxAge` and whose stat/unlink succeed; per-file failures are collected in
order without aborting the loop; `cleaned` counts the successful deletions.
In particular an entry of age `maxAge + 1000` ms is removed while one of
age `maxAge - 1000` ms is kept. -/
theorem cleanup_sweep_exact (now maxAge : Int) (files : List SweepFile) :
    (cleanupSweep now maxAge files).2.2 =
      files.filter (fun f =>
        f.statFails || !(decide (now - f.mtimeMs > maxAge)) || f.unlinkFails) ∧
    (cleanupSweep now maxAge files).1 =
      (files.filter (fun f =>
        !f.statFails && decide (now - f.mtimeMs > maxAge) &&
          !f.unlinkFails)).length ∧
    (cleanupSweep now maxAge files).2.1 =
      files.filterMap (fun f =>
        if f.statFails then some ⟨f.name, "stat failed"⟩
        else if now - f.mtimeMs > maxAge then
          (if f.unlinkFails then some ⟨f.name, "unlink failed"⟩ else none)
        else none) ∧
    cleanupSweep now maxAge
        [⟨"old.mp3", now - maxAge - 1000, false, false⟩,
         ⟨"fresh.mp3", now - maxAge + 1000, false, false⟩] =
      (1, [], [⟨"fresh.mp3", now - maxAge + 1000, false, false⟩]) := by
  refine ⟨?_, ?_, ?_, ?_⟩
  · induction files with
    | nil => rfl
    | cons f rest ih =>
      cases hs : f.statFails with
      | true => simp [cleanupSweep, hs, ih, List.filter_cons]
      | false =>
        by_cases ho : now - f.mtimeMs > maxAge
        · cases hu : f.unlinkFails with
          | true => simp [cleanupSweep, hs, ho, hu, ih, List.filter_cons]
          | false => simp [cleanupSweep, hs, ho, hu, ih, List.filter_cons]
        · simp [cleanupSweep, hs, ho, ih, List.filter_cons]
  · induction files with
    | nil => rfl
    | cons f rest ih =>
      cases hs : f.statFails with
      | true => simp [cleanupSweep, hs, ih, List.filter_cons]
      | false =>
        by_cases ho : now - f.mtimeMs > maxAge
        · cases hu : f.unlinkFails with
          | true => simp [cleanupSweep, hs, ho, hu, ih, List.filter_cons]
          | false => simp [cleanupSweep, hs, ho, hu, ih, List.filter_cons]
        · simp [cleanupSweep, hs, ho, ih, List.filter_cons]
  · induction files with
    | nil => rfl
    | cons f rest ih =>
      cases hs : f.statFails with
      | true => simp [cleanupSweep, hs, ih, List.filterMap_cons]
      | false =>
        by_cases ho : now - f.mtimeMs > maxAge
        · cases hu : f.unlinkFails with
          | true => simp [cleanupSweep, hs, ho, hu, ih, List.filterMap_cons]
          | false => simp [cleanupSweep, hs, ho, hu, ih, List.filterMap_cons]
        · simp [cleanupSweep, hs, ho, ih, List.filterMap_cons]
  · have hb1 : now - (now - maxAge - 1000) > maxAge := by omega
    have hb2 : ¬(now - (now - maxAge + 1000) > maxAge) := by omega
    simp [cleanupSweep, hb1, hb2]

/-! ## Claim C10 — speed values that evade the bound check -/

set_option maxRecDepth 100000 in
/-- C10: a request whose `speed` is the numeric string `"100"` (or `NaN`)
is not rejected: `speed < 80 || speed > 500` evaluates to `false` under
JavaScript coercion, so the handler proceeds and hands that speed value to
the synthesizer. -/
theorem speed_string_bypasses_validation :
    (JSpeed.jsLt (.str "100") 80 || JSpeed.jsGt (.str "100") 500) = false ∧
    (JSpeed.jsLt .nan 80 || JSpeed.jsGt .nan 500) = false ∧
    (ttsHandler adOk [] ⟨some "hello", "en", .str "100", "h"⟩).2.1.isClientError
      = false ∧
    ((ttsHandler adOk [] ⟨some "hello", "en", .str "100", "h"⟩).2.2.any
      fun e => e == .synth "hello" "en" "100") = true ∧
    ((ttsHandler adOk [] ⟨some "hello", "en", JSpeed.nan, "h"⟩).2.2.any
      fun e => e == .synth "hello" "en" "NaN") = true := by
  decide

/-! ## Claim C5 — validation rejects before any side effect -/

/-- C5: a request with missing/blank text, text over the length bound, or
an integer speed outside `[80, 500]` is answered with the 400 validation
error; no subprocess is spawned and the filesystem is untouched. -/
theorem tts_validation_rejects (ad : Adapters) (fs : FS) (req : TTSReq)
    (h : req.text = none ∨
      (∃ t, req.text = some t ∧ jsTrim t = "") ∨
      (∃ t, req.text = some t ∧ t.length > 1000) ∨
      (∃ n, req.speed = JSpeed.num n ∧ (n < 80 ∨ n > 500))) :
    (ttsHandler ad fs req).2.1.isClientError = true ∧
    (ttsHandler ad fs req).1 = fs ∧
    (ttsHandler ad fs req).2.2 = [] := by
  rcases h with h | ⟨t, ht, htr⟩ | ⟨t, ht, hlen⟩ | ⟨n, hsp, hbnd⟩
  · simp [ttsHandler, h, TTSResult.isClientError]
  · simp [ttsHandler, ht, htr, TTSResult.isClientError]
  · by_cases h1 : (jsTrim t == "") = true
    · simp [ttsHandler, ht, h1, TTSResult.isClientError]
    · simp [ttsHandler, ht, h1, hlen, TTSResult.isClientError]
  · have h3 : (req.speed.jsLt 80 || req.speed.jsGt 500) = true := by
      rcases hbnd with hb | hb <;>
        simp [hsp, JSpeed.jsLt, JSpeed.jsGt, JSpeed.toNumber, hb]
    cases hx : req.text with
    | none => simp [ttsHandler, hx, TTSResult.isClientError]
    | some t =>
      by_cases h1 : (jsTrim t == "") = true
      · simp [ttsHandler, hx, h1, TTSResult.isClientError]
      · by_cases h2 : t.length > 1000
        · simp [ttsHandler, hx, h1, h2, TTSResult.isClientError]
        · simp [ttsHandler, hx, h1, h2, h3, TTSResult.isClientError]

/-- C5, witness: the spec's scenario B, `{text: "", voice: "en",
speed: 175}`. -/
theorem tts_validation_rejects_witness :
    (ttsHandler adOk [] ⟨some "", "en", .num 175, "h"⟩).2.1.isClientError
      = true ∧
    (ttsHandler adOk [] ⟨some "", "en", .num 175, "h"⟩).1 = [] ∧
    (ttsHandler adOk [] ⟨some "", "en", .num 175, "h"⟩).2.2 = [] :=
  tts_validation_rejects adOk [] ⟨some "", "en", .num 175, "h"⟩
    (Or.inr (Or.inl ⟨"", rfl, by decide⟩))

/-! ## Claim C8 — the in-memory cache of `part_007` -/

/-- C8 counterexample: the claim states cached metadata is returned only
while the artifact file still exists, and that deleting the artifact makes
the next call regenerate.  `generateTTSAudio` consults `CACHE` *before* the
filesystem: with the artifact absent from disk but the hash present in
`CACHE`, it returns the stale metadata, runs no adapter, and regenerates
nothing. -/
theorem cache_stale_counterexample :
    ((⟨[(fingerprint "hi" "en" (.num 175), staleResult)], []⟩ :
        GenState).fs.existsFile (fingerprint "hi" "en" (.num 175) ++ ".mp3"))
      = false ∧
    generateTTSAudio adOk
        ⟨[(fingerprint "hi" "en" (.num 175), staleResult)], []⟩
        "hi" "en" (.num 175) =
      (⟨[(fingerprint "hi" "en" (.num 175), staleResult)], []⟩,
        .ok staleResult, []) := by
  constructor
  · rfl
  · simp [generateTTSAudio, List.lookup_cons]

/-- C8 amended: the in-memory `CACHE` is consulted first and trusted
unconditionally — whenever the hash is in `CACHE`, its stored metadata is
returned with no filesystem check, no adapter invocation and no state
change, whether or not the artifact file still exists.  Only a hash absent
from `CACHE` reaches the disk check or regeneration. -/
theorem cache_entry_trusted (ad : Adapters) (st : GenState) (t v : String)
    (s : JSpeed) (r : GenResult)
    (h : st.cache.lookup (fingerprint t v s) = some r) :
    generateTTSAudio ad st t v s = (st, .ok r, []) := by
  simp [generateTTSAudio, h]

/-- C8 amended, witness. -/
theorem cache_entry_trusted_witness :
    generateTTSAudio adOk
        ⟨[(fingerprint "hello" "en" (.num 200), staleResult)], []⟩
        "hello" "en" (.num 200) =
      (⟨[(fingerprint "hello" "en" (.num 200), staleResult)], []⟩,
        .ok staleResult, []) :=
  cache_entry_trusted adOk
    ⟨[(fingerprint "hello" "en" (.num 200), staleResult)], []⟩
    "hello" "en" (.num 200) staleResult (by simp [List.lookup_cons])

/-! ## Claim C3 — cleanup of intermediate and partial files -/

set_option maxRecDepth 100000 in
/-- C3 counterexample: the claim states no `.wav` remains after any call.
In the main `server.js` handler the `catch` block removes nothing: when
`ffmpeg` fails after `espeak` wrote the WAV, the 500 response is sent and
the WAV file is still on disk. -/
theorem tts_wav_debris_counterexample :
    (ttsHandler adTransFail [] ⟨some "hi", "en", .num 175, "h"⟩).2.1.isServerError
      = true ∧
    (ttsHandler adTransFail [] ⟨some "hi", "en", .num 175, "h"⟩).1.existsFile
      (fingerprint "hi" "en" (.num 175) ++ ".wav") = true := by
  decide

/-- C3 amended: the cleanup claim holds of `part_007`'s `generateTTSAudio`
(not of the main `server.js` handler): if no intermediate WAV exists for
the fingerprint beforehand, none exists after the call — whether it
succeeds or fails — and on any generation failure the (possibly partial)
MP3 artifact for the fingerprint is removed as well before the error is
thrown. -/
theorem part007_cleanup_invariant (ad : Adapters) (st : GenState)
    (t v : String) (s : JSpeed)
    (hwav : st.fs.existsFile (fingerprint t v s ++ ".wav") = false) :
    (generateTTSAudio ad st t v s).1.fs.existsFile
      (fingerprint t v s ++ ".wav") = false ∧
    (exceptIsOk (generateTTSAudio ad st t v s).2.1 = false →
      (generateTTSAudio ad st t v s).1.fs.existsFile
        (fingerprint t v s ++ ".mp3") = false) := by
  simp only [generateTTSAudio]
  split
  · exact ⟨hwav, fun h => by simp [exceptIsOk] at h⟩
  · split
    · exact ⟨hwav, fun h => by simp [exceptIsOk] at h⟩
    · split
      · exact ⟨existsFile_double_unlink _ _ _, fun _ => existsFile_unlink_self _ _⟩
      · split
        · exact ⟨existsFile_double_unlink _ _ _, fun _ => existsFile_unlink_self _ _⟩
        · split
          · exact ⟨existsFile_double_unlink _ _ _, fun _ => existsFile_unlink_self _ _⟩
          · exact ⟨existsFile_unlink_self _ _, fun h => by simp [exceptIsOk] at h⟩

/-- C3 amended, witness: a fresh state and an arbitrary run. -/
theorem part007_cleanup_invariant_witness :
    (generateTTSAudio adOk ⟨[], []⟩ "hi" "en" (.num 175)).1.fs.existsFile
      (fingerprint "hi" "en" (.num 175) ++ ".wav") = false :=
  (part007_cleanup_invariant adOk ⟨[], []⟩ "hi" "en" (.num 175) rfl).1

/-- A successful `convertToMp3` leaves the output file in place. -/
theorem convert_ok_output (ad : Adapters) (fs : FS) (i o : String)
    (h : (convertToMp3 ad fs i o).2 = true) :
    (convertToMp3 ad fs i o).1.existsFile o = true := by
  simp only [convertToMp3, Bool.and_eq_true, beq_iff_eq] at h ⊢
  exact h.2


/-- Characterization of every successful `/api/tts` call of the main
variant: the text validated, the final directory holds the MP3 artifact
named by the fingerprint, the response fields are derived from exactly that
artifact, and the subprocess trace is either the fast-path probe alone
(with the directory untouched) or synthesis–transcode–probe. -/
theorem ttsHandler_ok_inv (ad : Adapters) (fs : FS) (req : TTSReq)
    (r : TTSResponse) (h : (ttsHandler ad fs req).2.1 = .ok r) :
    ∃ t m, req.text = some t ∧
      (jsTrim t == "") = false ∧
      ¬(t.length > 1000) ∧
      (req.speed.jsLt 80 || req.speed.jsGt 500) = false ∧
      (ttsHandler ad fs req).1.statMeta
        (fingerprint t req.voice req.speed ++ ".mp3") = some m ∧
      r = ⟨fingerprint t req.voice req.speed,
           ad.probeDuration (fingerprint t req.voice req.speed ++ ".mp3") m,
           m.size, audioUrl req.host (fingerprint t req.voice req.speed)⟩ ∧
      ((ttsHandler ad fs req).2.2 =
          [.probe (fingerprint t req.voice req.speed ++ ".mp3")] ∧
          (ttsHandler ad fs req).1 = fs ∨
        (ttsHandler ad fs req).2.2 =
          [.synth t req.voice req.speed.toStr,
           .transcode (fingerprint t req.voice req.speed ++ ".wav")
             (fingerprint t req.voice req.speed ++ ".mp3"),
           .probe (fingerprint t req.voice req.speed ++ ".mp3")]) := by
  cases hx : req.text with
  | none => simp [ttsHandler, hx] at h
  | some t =>
    cases h1 : (jsTrim t == "") with
    | true => simp [ttsHandler, hx, h1] at h
    | false =>
      by_cases h2 : t.length > 1000
      · simp [ttsHandler, hx, h1, h2] at h
      · cases h3 : (req.speed.jsLt 80 || req.speed.jsGt 500) with
        | true => simp [ttsHandler, hx, h1, h2, h3] at h
        | false =>
          simp only [ttsHandler, hx, h1, h2, h3, Bool.false_eq_true, if_false,
            if_neg h2] at h ⊢
          cases h4 : fs.existsFile (fingerprint t req.voice req.speed ++ ".mp3") with
          | true =>
            have hsome : (fs.lookup
                (fingerprint t req.voice req.speed ++ ".mp3")).isSome = true := h4
            obtain ⟨m, hm⟩ := Option.isSome_iff_exists.mp hsome
            have hm' : fs.statMeta
                (fingerprint t req.voice req.speed ++ ".mp3") = some m := hm
            simp only [h4, eq_self_iff_true, if_true, hm',
              Option.getD_some] at h ⊢
            rw [TTSResult.ok.injEq] at h
            exact ⟨t, m, rfl, h1, h2, by simp, hm', h.symm, Or.inl (by simp)⟩
          | false =>
            simp only [h4, Bool.false_eq_true, if_false] at h ⊢
            cases hr1 : (runEspeak ad fs t req.voice req.speed.toStr
                (fingerprint t req.voice req.speed ++ ".wav")).2 with
            | false => simp [hr1] at h
            | true =>
              simp only [hr1, Bool.not_true, Bool.false_eq_true,
                if_false] at h ⊢
              cases hr2 : (convertToMp3 ad
                  (runEspeak ad fs t req.voice req.speed.toStr
                    (fingerprint t req.voice req.speed ++ ".wav")).1
                  (fingerprint t req.voice req.speed ++ ".wav")
                  (fingerprint t req.voice req.speed ++ ".mp3")).2 with
              | false => simp [hr2] at h
              | true =>
                simp only [hr2, Bool.not_true, Bool.false_eq_true,
                  if_false] at h ⊢
                have hout := convert_ok_output ad
                  (runEspeak ad fs t req.voice req.speed.toStr
                    (fingerprint t req.voice req.speed ++ ".wav")).1
                  (fingerprint t req.voice req.speed ++ ".wav")
                  (fingerprint t req.voice req.speed ++ ".mp3") hr2
                have hsome : ((convertToMp3 ad
                    (runEspeak ad fs t req.voice req.speed.toStr
                      (fingerprint t req.voice req.speed ++ ".wav")).1
                    (fingerprint t req.voice req.speed ++ ".wav")
                    (fingerprint t req.voice req.speed ++ ".mp3")).1.lookup
                    (fingerprint t req.voice req.speed ++ ".mp3")).isSome
                    = true := hout
                obtain ⟨m, hm⟩ := Option.isSome_iff_exists.mp hsome
                have hm3 : ((convertToMp3 ad
                    (runEspeak ad fs t req.voice req.speed.toStr
                      (fingerprint t req.voice req.speed ++ ".wav")).1
                    (fingerprint t req.voice req.speed ++ ".wav")
                    (fingerprint t req.voice req.speed ++ ".mp3")).1.unlink
                    (fingerprint t req.voice req.speed ++ ".wav")).statMeta
                    (fingerprint t req.voice req.speed ++ ".mp3") = some m := by
                  simp only [FS.statMeta]
                  rw [lookup_unlink_ne _ _ _
                    (mp3_ne_wav (fingerprint t req.voice req.speed))]
                  exact hm
                simp only [hm3, Option.getD_some] at h ⊢
                rw [TTSResult.ok.injEq] at h
                exact ⟨t, m, rfl, h1, h2, by simp, hm3, h.symm, Or.inr (by simp)⟩

/-! ## Claim C1 — cache hit and sequential idempotence -/

/-- C1: (fast path) when the MP3 artifact for the request's fingerprint
already exists, the handler answers from it: the trace holds neither a
synthesis nor a transcode event, the directory is untouched, and the
response is that artifact's metadata.  (Idempotence) after any successful
call, an identical second call hits the fast path, invokes neither
adapter, returns identical metadata and leaves the directory unchanged —
so two sequential identical calls perform at most one synthesis and at
most one transcode. -/
theorem tts_cache_hit_idempotent :
    (∀ (ad : Adapters) (fs : FS) (req : TTSReq) (t : String) (m : FileMeta),
      req.text = some t →
      (jsTrim t == "") = false →
      ¬(t.length > 1000) →
      (req.speed.jsLt 80 || req.speed.jsGt 500) = false →
      fs.statMeta (fingerprint t req.voice req.speed ++ ".mp3") = some m →
      (ttsHandler ad fs req).2.2 =
        [.probe (fingerprint t req.voice req.speed ++ ".mp3")] ∧
      (ttsHandler ad fs req).1 = fs ∧
      (ttsHandler ad fs req).2.1 =
        .ok ⟨fingerprint t req.voice req.speed,
          ad.probeDuration (fingerprint t req.voice req.speed ++ ".mp3") m,
          m.size, audioUrl req.host (fingerprint t req.voice req.speed)⟩) ∧
    (∀ (ad : Adapters) (fs : FS) (req : TTSReq) (r : TTSResponse),
      (ttsHandler ad fs req).2.1 = .ok r →
      (ttsHandler ad (ttsHandler ad fs req).1 req).2.1 = .ok r ∧
      (ttsHandler ad (ttsHandler ad fs req).1 req).1 =
        (ttsHandler ad fs req).1 ∧
      ((ttsHandler ad (ttsHandler ad fs req).1 req).2.2.all
        (fun e => !e.isGen)) = true ∧
      synthCount ((ttsHandler ad fs req).2.2 ++
        (ttsHandler ad (ttsHandler ad fs req).1 req).2.2) ≤ 1 ∧
      transCount ((ttsHandler ad fs req).2.2 ++
        (ttsHandler ad (ttsHandler ad fs req).1 req).2.2) ≤ 1) := by
  have fast : ∀ (ad : Adapters) (fs : FS) (req : TTSReq) (t : String)
      (m : FileMeta),
      req.text = some t →
      (jsTrim t == "") = false →
      ¬(t.length > 1000) →
      (req.speed.jsLt 80 || req.speed.jsGt 500) = false →
      fs.statMeta (fingerprint t req.voice req.speed ++ ".mp3") = some m →
      (ttsHandler ad fs req).2.2 =
        [.probe (fingerprint t req.voice req.speed ++ ".mp3")] ∧
      (ttsHandler ad fs req).1 = fs ∧
      (ttsHandler ad fs req).2.1 =
        .ok ⟨fingerprint t req.voice req.speed,
          ad.probeDuration (fingerprint t req.voice req.speed ++ ".mp3") m,
          m.size, audioUrl req.host (fingerprint t req.voice req.speed)⟩ := by
    intro ad fs req t m hx h1 h2 h3 hm
    have h4 : fs.existsFile (fingerprint t req.voice req.speed ++ ".mp3")
        = true := by
      simp only [FS.existsFile]
      rw [show fs.lookup (fingerprint t req.voice req.speed ++ ".mp3")
        = some m from hm]
      rfl
    simp only [ttsHandler, hx, h1, h2, h3, Bool.false_eq_true, if_false,
      if_neg h2, h4, eq_self_iff_true, if_true, hm, Option.getD_some]
    simp
  refine ⟨fast, ?_⟩
  intro ad fs req r h
  obtain ⟨t, m, hx, h1, h2, h3, hm, hr, htr⟩ := ttsHandler_ok_inv ad fs req r h
  obtain ⟨e2, f2, r2⟩ := fast ad (ttsHandler ad fs req).1 req t m hx h1 h2 h3 hm
  refine ⟨?_, f2, ?_, ?_, ?_⟩
  · rw [r2, hr]
  · rw [e2]
    simp [Ev.isGen, Ev.isSynth, Ev.isTrans]
  · rcases htr with ⟨hev1, _⟩ | hev1 <;> rw [hev1, e2] <;>
      simp [synthCount, Ev.isSynth, List.filter_cons]
  · rcases htr with ⟨hev1, _⟩ | hev1 <;> rw [hev1, e2] <;>
      simp [transCount, Ev.isTrans, List.filter_cons]

set_option maxRecDepth 100000 in
/-- C1, witness: a fast-path call against a pre-populated directory, and
an idempotent pair of calls starting from an empty directory. -/
theorem tts_cache_hit_idempotent_witness :
    ((ttsHandler adOk hitFS reqHi).2.2 =
      [.probe (fingerprint "hi" "en" (.num 175) ++ ".mp3")] ∧
     (ttsHandler adOk hitFS reqHi).1 = hitFS ∧
     (ttsHandler adOk hitFS reqHi).2.1 =
       .ok ⟨fingerprint "hi" "en" (.num 175),
         adOk.probeDuration (fingerprint "hi" "en" (.num 175) ++ ".mp3") ⟨7, 4⟩,
         (7 : Nat), audioUrl "h" (fingerprint "hi" "en" (.num 175))⟩) ∧
    ((ttsHandler adOk (ttsHandler adOk [] reqHi).1 reqHi).2.1 = .ok okResp ∧
     (ttsHandler adOk (ttsHandler adOk [] reqHi).1 reqHi).1 =
       (ttsHandler adOk [] reqHi).1 ∧
     ((ttsHandler adOk (ttsHandler adOk [] reqHi).1 reqHi).2.2.all
       (fun e => !e.isGen)) = true ∧
     synthCount ((ttsHandler adOk [] reqHi).2.2 ++
       (ttsHandler adOk (ttsHandler adOk [] reqHi).1 reqHi).2.2) ≤ 1 ∧
     transCount ((ttsHandler adOk [] reqHi).2.2 ++
       (ttsHandler adOk (ttsHandler adOk [] reqHi).1 reqHi).2.2) ≤ 1) := by
  constructor
  · exact tts_cache_hit_idempotent.1 adOk hitFS reqHi "hi" ⟨7, 4⟩ rfl
      (by decide) (by decide) (by decide)
      (by simp [hitFS, reqHi, FS.statMeta, List.lookup_cons])
  · exact tts_cache_hit_idempotent.2 adOk [] reqHi okResp (by decide)

/-! ## Claim C7 — the fingerprint as identifier -/

/-- C7 counterexample: the claim states every call for the same
`(text, voice, speed)` yields the same identifier, across all variants.
In `part_004` the on-disk name is derived from 16 fresh random bytes, so
two calls with identical parameters name their files differently. -/
theorem random_file_id_counterexample :
    part004AudioFile "hi" "en" (.num 175) (List.replicate 16 0) ≠
    part004AudioFile "hi" "en" (.num 175) (List.replicate 15 0 ++ [1]) := by
  decide

/-- C7 amended: in the caching variants the identifier of a successful
call is `fingerprint text voice speed` — a pure function of the request
parameters (purity and determinism are inherent to the embedding: the
fingerprint is a function) — it is 32 characters long, it is the stem of
the URL locator, and the artifact on disk is named by it. -/
theorem fingerprint_identifier (ad : Adapters) (fs : FS) (req : TTSReq)
    (r : TTSResponse) (h : (ttsHandler ad fs req).2.1 = .ok r) :
    ∃ t, req.text = some t ∧
      r.audio_id = fingerprint t req.voice req.speed ∧
      r.audio_id.length = 32 ∧
      r.url = audioUrl req.host r.audio_id ∧
      (ttsHandler ad fs req).1.existsFile (r.audio_id ++ ".mp3") = true := by
  obtain ⟨t, m, hx, h1, h2, h3, hm, hr, htr⟩ := ttsHandler_ok_inv ad fs req r h
  refine ⟨t, hx, ?_, ?_, ?_, ?_⟩
  · rw [hr]
  · rw [hr]
    exact md5Hex_length _
  · rw [hr]
  · rw [hr]
    simp only [FS.statMeta] at hm
    simp [FS.existsFile, hm]

set_option maxRecDepth 100000 in
/-- C7 amended, witness: the fast-path call against `hitFS`. -/
theorem fingerprint_identifier_witness :
    reqHi.text = some "hi" ∧
    hitResp.audio_id = fingerprint "hi" reqHi.voice reqHi.speed ∧
    hitResp.audio_id.length = 32 ∧
    hitResp.url = audioUrl reqHi.host hitResp.audio_id ∧
    (ttsHandler adOk hitFS reqHi).1.existsFile (hitResp.audio_id ++ ".mp3")
      = true := by
  obtain ⟨t, hx, ha, hb, hc, hd⟩ :=
    fingerprint_identifier adOk hitFS reqHi hitResp (by decide)
  have ht : t = "hi" := by
    have := hx
    simp only [reqHi] at this
    exact (Option.some.injEq _ _).mp this.symm
  subst ht
  exact ⟨hx, ha, hb, hc, hd⟩

/-! ## Claim C2 — concurrent identical requests -/

/-- C2 counterexample: the claim states that N concurrent identical calls
perform exactly one synthesis and one transcode, serialized by an exclusive
per-fingerprint generation lock.  No such lock exists in the source: under
the schedule where both requests run their existence check before either
has produced the MP3, each request spawns its own `espeak` and `ffmpeg` —
two synthesis and two transcode invocations for one fingerprint. -/
theorem concurrent_double_generation :
    synthCount (sysEvs (runSched envHi
      [true, false, true, true, false, false] initTwoSys)) = 2 ∧
    transCount (sysEvs (runSched envHi
      [true, false, true, true, false, false] initTwoSys)) = 2 := by
  have hwm : ((fingerprint "hi" "en" (JSpeed.num 175) ++ ".wav") ==
      (fingerprint "hi" "en" (JSpeed.num 175) ++ ".mp3")) = false :=
    beq_eq_false_iff_ne.mpr (wav_ne_mp3 _)
  have hmw : ((fingerprint "hi" "en" (JSpeed.num 175) ++ ".mp3") ==
      (fingerprint "hi" "en" (JSpeed.num 175) ++ ".wav")) = false :=
    beq_eq_false_iff_ne.mpr (mp3_ne_wav _)
  constructor <;>
    simp [runSched, stepSys, stepReq, envHi, initTwoSys, sysEvs,
      FS.existsFile, FS.write, FS.unlink, FS.statMeta, hwm, hmw,
      synthCount, transCount, Ev.isSynth, Ev.isTrans,
      List.filter_cons, List.lookup_cons]

/-- C2 amended: the code serializes nothing — at-most-one generation holds
only for schedules in which a later request's existence check runs after
an earlier request's transcode completed.  Under the serialized schedule
the second request takes the fast path: one synthesis and one transcode in
total, and both requests answer with the same metadata derived from the
generated artifact. -/
theorem serialized_single_generation (env : GenEnv) :
    synthCount (sysEvs (runSched env [true, true, true, false] initTwoSys))
      = 1 ∧
    transCount (sysEvs (runSched env [true, true, true, false] initTwoSys))
      = 1 ∧
    (runSched env [true, true, true, false] initTwoSys).pA.response =
      some ⟨fingerprint env.text env.voice env.speed, env.dur,
        env.mp3M.size,
        audioUrl env.host (fingerprint env.text env.voice env.speed)⟩ ∧
    (runSched env [true, true, true, false] initTwoSys).pB.response =
      (runSched env [true, true, true, false] initTwoSys).pA.response := by
  have hwm : ((fingerprint env.text env.voice env.speed ++ ".wav") ==
      (fingerprint env.text env.voice env.speed ++ ".mp3")) = false :=
    beq_eq_false_iff_ne.mpr (wav_ne_mp3 _)
  have hmw : ((fingerprint env.text env.voice env.speed ++ ".mp3") ==
      (fingerprint env.text env.voice env.speed ++ ".wav")) = false :=
    beq_eq_false_iff_ne.mpr (mp3_ne_wav _)
  refine ⟨?_, ?_, ?_, ?_⟩ <;>
    simp [runSched, stepSys, stepReq, initTwoSys, sysEvs,
      FS.existsFile, FS.write, FS.unlink, FS.statMeta, hwm, hmw,
      synthCount, transCount, Ev.isSynth, Ev.isTrans,
      List.filter_cons, List.lookup_cons]
